import Mathlib

/-!
Verification development for the Paladin Linux sandbox's process
orchestration and result aggregation core.  The Python sources under
`src/app` and `src/sandbox_api` are shallowly embedded: subprocess
behaviour (exit codes, captured output, timeouts, spawn failures) is
passed in explicitly as data, and each handler or helper becomes a total
Lean function over that data.  Python dicts appear either as fixed-field
structures (pydantic models) or as association lists / a small JSON value
type (literal dict results and `json.loads` output).
-/

set_option maxRecDepth 100000

namespace Paladin

/-- A JSON-like value, modelling the Python dicts, lists and scalars that
the service builds and parses (`json.loads` results, response bodies,
SARIF documents). -/
inductive JValue where
  | jnull
  | jbool (b : Bool)
  | jnum (n : Int)
  | jstr (s : String)
  | jarr (xs : List JValue)
  | jobj (fields : List (String × JValue))

/-- Python's `dict.get(key, default)` on a JSON object: the value stored
under `k`, or `d` when the key is absent (or the value is not an object). -/
def jget (v : JValue) (k : String) (d : JValue) : JValue :=
  match v with
  | .jobj fields =>
    match fields.lookup k with
    | some x => x
    | none => d
  | _ => d

/-- The element list of a JSON array (iterating a parsed JSON list);
non-arrays contribute no elements. -/
def jarrElems : JValue → List JValue
  | .jarr xs => xs
  | _ => []

/-- The top-level keys of a JSON object, in insertion order. -/
def objKeys : JValue → List String
  | .jobj fields => fields.map Prod.fst
  | _ => []

/-- Python truthiness (`if v:`) of a JSON value: `None`, `False`, `0`,
`""`, `[]` and `{}` are falsy, everything else is truthy. -/
def jtruthy : JValue → Bool
  | .jnull => false
  | .jbool b => b
  | .jnum n => n != 0
  | .jstr s => !s.isEmpty
  | .jarr xs => !xs.isEmpty
  | .jobj fields => !fields.isEmpty

/-- Python's `str.rstrip(c)` for a single-character set: drop every
trailing occurrence of `c`. -/
def pyRstrip (c : Char) (s : String) : String :=
  String.mk ((s.toList.reverse.dropWhile (fun a => a == c)).reverse)

/-! ## Process Stream Executor (`src/sandbox_api/executor.py`) -/

/-- One spawned process as the Executor observes it: the merged
stdout+stderr lines in emission order (`stream_process` redirects stderr
to stdout), each line still carrying its trailing newline, and the exit
code the process terminates with.  This models a process that exits
before the timeout, which is the case claim C1 is about. -/
structure Proc where
  rawLines : List String
  exitCode : Int

/-- Embeds `executor.stream_process` on a process that exits before the
timeout: every line is yielded with its trailing newline stripped
(`line.rstrip("\n")`), in emission order, until `readline` returns the
empty string at end of stream. -/
def stream_process (p : Proc) : List String :=
  p.rawLines.map (pyRstrip (Char.ofNat 10))

/-- Embeds `executor.run_capture`: collect the streamed lines into a
buffer and return the pair the source returns.  Note the source's
`return 0, "\n".join(buf)`: the first component is the constant `0`,
`proc.returncode` is never consulted. -/
def run_capture (p : Proc) : Int × String :=
  (0, String.intercalate "\n" (stream_process p))

/-! ## Command endpoint of `src/app/main.py` -/

/-- `app/main.py` `CommandRequest` (pydantic model). -/
structure CommandRequest where
  command : String
  timeout : Int := 30
  background : Bool := false

/-- `app/main.py` `CommandResult` (pydantic model). -/
structure CommandResult where
  success : Bool
  stdout : String
  stderr : String
  exit_code : Int
  error : Option String := none
  deriving DecidableEq

/-- How the synchronous `subprocess.run` call behaves for a given request:
the process completes within the timeout with its real return code and
captured streams, or `subprocess.TimeoutExpired` is raised, or some other
exception with message `msg` is raised. -/
inductive RunOutcome where
  | completes (returncode : Int) (stdout stderr : String)
  | timesOut
  | raises (msg : String)
  deriving DecidableEq

/-- Embeds `app/main.py execute_command` (the `/command` endpoint).
A background request returns immediately with `success=True`, a PID
message and exit code 0.  A synchronous request returns the real return
code on completion; on `TimeoutExpired` it returns the `-1` sentinel with
a timeout message, and on any other exception the `-1` sentinel with the
exception's message. -/
def app_execute_command (req : CommandRequest) (pid : Nat) (outcome : RunOutcome) :
    CommandResult :=
  if req.background then
    { success := true
      stdout := "Command started in background (PID: " ++ toString pid ++ ")"
      stderr := ""
      exit_code := 0 }
  else
    match outcome with
    | .completes rc out err =>
      { success := rc == 0, stdout := out, stderr := err, exit_code := rc }
    | .timesOut =>
      { success := false, stdout := "", stderr := "Command timed out",
        exit_code := -1, error := some "Command execution timed out" }
    | .raises msg =>
      { success := false, stdout := "", stderr := msg,
        exit_code := -1, error := some ("Command execution failed: " ++ msg) }

/-- C1: the claim says the Executor's synchronous capture returns the
process's real exit code.  Evaluating the embedded `run_capture` at the
failing input `false` (a process that exits with code 1 and emits no
output) shows the code returns exit code 0 instead of the real exit code
1; a process that prints `hello` and exits 0 shows the captured output
itself is faithful. -/
theorem C1_run_capture_ignores_exit_code :
    run_capture ⟨["hello\n"], 0⟩ = (0, "hello") ∧
    run_capture ⟨[], 1⟩ = (0, "") ∧
    (run_capture ⟨[], 1⟩).1 ≠ (Proc.mk [] 1).exitCode := by
  refine ⟨rfl, rfl, by decide⟩

/-- C2: a synchronous command that exceeds its timeout yields a result
whose exit code is the out-of-band sentinel `-1`, which differs from
every legitimate exit code in the 0–255 range, while a natural exit
yields the process's real exit code. -/
theorem C2_timeout_sentinel (cmd : String) (t : Int) (pid : Nat) :
    (app_execute_command ⟨cmd, t, false⟩ pid .timesOut).exit_code = -1 ∧
    (∀ c : Int, 0 ≤ c → c ≤ 255 →
      (app_execute_command ⟨cmd, t, false⟩ pid .timesOut).exit_code ≠ c) ∧
    (∀ rc out err,
      (app_execute_command ⟨cmd, t, false⟩ pid (.completes rc out err)).exit_code = rc) := by
  refine ⟨rfl, ?_, fun rc out err => rfl⟩
  intro c hc hc' h
  simp only [app_execute_command, Bool.false_eq_true, if_false] at h
  omega

/-- C2 witness: concrete instance at the command `sleep 10` with timeout
1: the timed-out result carries exit code -1, which is not the
legitimate exit code 7. -/
theorem C2_timeout_sentinel_witness :
    (app_execute_command ⟨"sleep 10", 1, false⟩ 42 .timesOut).exit_code = -1 ∧
    (app_execute_command ⟨"sleep 10", 1, false⟩ 42 .timesOut).exit_code ≠ 7 :=
  ⟨(C2_timeout_sentinel "sleep 10" 1 42).1,
   (C2_timeout_sentinel "sleep 10" 1 42).2.1 7 (by decide) (by decide)⟩

/-! ## Scenario dispatch (`src/sandbox_api/main.py`)

`generate_playwright_script` is an f-string per scenario; the embedding
splits each template at its interpolation points, so a template is the
concatenation of fixed text parts with the request's `url` / `payload`
(and, for the generic branch, the scenario name) spliced between them.
Literal braces produced by the f-strings' escaped braces are written with
hexadecimal escapes, as are the templates' single quotes. -/

/-- Text of the `navigate` template before the first `{url}` splice. -/
def navPart1 : String :=
  "\n" ++
  "import asyncio\n" ++
  "from playwright.async_api import async_playwright\n" ++
  "\n" ++
  "async def main():\n" ++
  "    async with async_playwright() as p:\n" ++
  "        browser = await p.chromium.launch(headless=False)\n" ++
  "        page = await browser.new_page()\n" ++
  "        \n" ++
  "        print(f\"Navigating to "

/-- Text of the `navigate` template between its two `{url}` splices. -/
def navPart2 : String :=
  "\")\n" ++
  "        response = await page.goto(\""

/-- Text of the `navigate` template after the second `{url}` splice. -/
def navPart3 : String :=
  "\", timeout=30000)\n" ++
  "        print(f\"Response status: \x7bresponse.status\x7d\")\n" ++
  "        print(f\"Final URL: \x7bpage.url\x7d\")\n" ++
  "        \n" ++
  "        # Wait for page to load\n" ++
  "        await page.wait_for_load_state(\x27networkidle\x27, timeout=10000)\n" ++
  "        \n" ++
  "        # Get page title and basic info\n" ++
  "        title = await page.title()\n" ++
  "        print(f\"Page title: \x7btitle\x7d\")\n" ++
  "        \n" ++
  "        # Check for common elements\n" ++
  "        forms = await page.query_selector_all(\x27form\x27)\n" ++
  "        inputs = await page.query_selector_all(\x27input\x27)\n" ++
  "        links = await page.query_selector_all(\x27a\x27)\n" ++
  "        \n" ++
  "        print(f\"Found \x7blen(forms)\x7d forms, \x7blen(inputs)\x7d inputs, \x7blen(links)\x7d links\")\n" ++
  "        \n" ++
  "        await browser.close()\n" ++
  "\n" ++
  "if __name__ == \"__main__\":\n" ++
  "    asyncio.run(main())\n"

/-- The `navigate` branch of `generate_playwright_script`: the f-string
with `{url}` interpolated twice. -/
def navigateScript (url : String) : String :=
  navPart1 ++ url ++ navPart2 ++ url ++ navPart3

/-- Text of the `xss_test` template before the first `{url}` splice. -/
def xssPart1 : String :=
  "\n" ++
  "import asyncio\n" ++
  "from playwright.async_api import async_playwright\n" ++
  "\n" ++
  "async def main():\n" ++
  "    async with async_playwright() as p:\n" ++
  "        browser = await p.chromium.launch(headless=False)\n" ++
  "        page = await browser.new_page()\n" ++
  "        \n" ++
  "        # Set up dialog handler to catch alerts\n" ++
  "        dialog_triggered = False\n" ++
  "        def handle_dialog(dialog):\n" ++
  "            global dialog_triggered\n" ++
  "            dialog_triggered = True\n" ++
  "            print(f\"ALERT TRIGGERED: \x7bdialog.message\x7d\")\n" ++
  "            dialog.accept()\n" ++
  "        \n" ++
  "        page.on(\"dialog\", handle_dialog)\n" ++
  "        \n" ++
  "        print(f\"Testing XSS on "

/-- `xss_test` template text between `{url}` and the first `{payload}`. -/
def xssPart2 : String := " with payload: "

/-- `xss_test` template text between the first `{payload}` and the
`page.goto` `{url}`. -/
def xssPart3 : String :=
  "\")\n" ++
  "        await page.goto(\""

/-- `xss_test` template text between the `page.goto` `{url}` and the
`fill` `{payload}`. -/
def xssPart4 : String :=
  "\", timeout=30000)\n" ++
  "        \n" ++
  "        # Find input fields and try XSS payload\n" ++
  "        inputs = await page.query_selector_all(\x27input[type=\"text\"], input[type=\"search\"], textarea\x27)\n" ++
  "        \n" ++
  "        for i, input_elem in enumerate(inputs):\n" ++
  "            try:\n" ++
  "                print(f\"Testing input \x7bi+1\x7d/\x7blen(inputs)\x7d\")\n" ++
  "                await input_elem.fill(\""

/-- `xss_test` template text between the `fill` `{payload}` and the
`test_url` line's first `{url}`. -/
def xssPart5 : String :=
  "\")\n" ++
  "                await input_elem.press(\x27Enter\x27)\n" ++
  "                await page.wait_for_timeout(1000)\n" ++
  "                \n" ++
  "                if dialog_triggered:\n" ++
  "                    print(\"XSS VULNERABILITY DETECTED!\")\n" ++
  "                    break\n" ++
  "                    \n" ++
  "            except Exception as e:\n" ++
  "                print(f\"Error testing input \x7bi+1\x7d: \x7be\x7d\")\n" ++
  "        \n" ++
  "        # Also check URL parameters\n" ++
  "        test_url = \""

/-- `xss_test` template text between the `test_url` line's two `{url}`
splices. -/
def xssPart6 : String := "\" + (\"&\" if \"?\" in \""

/-- `xss_test` template text between the `test_url` line's second `{url}`
and its `{payload}`. -/
def xssPart7 : String := "\" else \"?\") + f\"test="

/-- `xss_test` template text after the last `{payload}` splice. -/
def xssPart8 : String :=
  "\"\n" ++
  "        try:\n" ++
  "            await page.goto(test_url, timeout=10000)\n" ++
  "            await page.wait_for_timeout(2000)\n" ++
  "            if dialog_triggered:\n" ++
  "                print(\"XSS VULNERABILITY DETECTED IN URL PARAMETER!\")\n" ++
  "        except Exception as e:\n" ++
  "            print(f\"Error testing URL parameter: \x7be\x7d\")\n" ++
  "        \n" ++
  "        await browser.close()\n" ++
  "        \n" ++
  "        if dialog_triggered:\n" ++
  "            print(\"RESULT: XSS vulnerability found\")\n" ++
  "        else:\n" ++
  "            print(\"RESULT: No XSS vulnerability detected\")\n" ++
  "\n" ++
  "if __name__ == \"__main__\":\n" ++
  "    asyncio.run(main())\n"

/-- The `xss_test` branch of `generate_playwright_script`, with its seven
splices in template order: url, payload, url, payload, url, url,
payload. -/
def xssScript (url payload : String) : String :=
  xssPart1 ++ url ++ xssPart2 ++ payload ++ xssPart3 ++ url ++ xssPart4 ++ payload ++
    xssPart5 ++ url ++ xssPart6 ++ url ++ xssPart7 ++ payload ++ xssPart8

/-- Text of the `sql_injection_test` template before the first `{url}`
splice. -/
def sqlPart1 : String :=
  "\n" ++
  "import asyncio\n" ++
  "from playwright.async_api import async_playwright\n" ++
  "\n" ++
  "async def main():\n" ++
  "    async with async_playwright() as p:\n" ++
  "        browser = await p.chromium.launch(headless=False)\n" ++
  "        page = await browser.new_page()\n" ++
  "        \n" ++
  "        print(f\"Testing SQL injection on "

/-- `sql_injection_test` template text between `{url}` and `{payload}` in
the print line. -/
def sqlPart2 : String := " with payload: "

/-- `sql_injection_test` template text between the print line's
`{payload}` and the `page.goto` `{url}`. -/
def sqlPart3 : String :=
  "\")\n" ++
  "        await page.goto(\""

/-- `sql_injection_test` template text between the `page.goto` `{url}` and
the `fill` `{payload}`. -/
def sqlPart4 : String :=
  "\", timeout=30000)\n" ++
  "        \n" ++
  "        # Find forms and input fields\n" ++
  "        forms = await page.query_selector_all(\x27form\x27)\n" ++
  "        \n" ++
  "        for form_idx, form in enumerate(forms):\n" ++
  "            inputs = await form.query_selector_all(\x27input[type=\"text\"], input[type=\"password\"], input[type=\"email\"]\x27)\n" ++
  "            \n" ++
  "            if inputs:\n" ++
  "                print(f\"Testing form \x7bform_idx + 1\x7d with \x7blen(inputs)\x7d inputs\")\n" ++
  "                \n" ++
  "                # Fill inputs with SQL injection payload\n" ++
  "                for input_elem in inputs:\n" ++
  "                    await input_elem.fill(\""

/-- `sql_injection_test` template text after the `fill` `{payload}`
splice. -/
def sqlPart5 : String :=
  "\")\n" ++
  "                \n" ++
  "                # Submit form\n" ++
  "                submit_btn = await form.query_selector(\x27input[type=\"submit\"], button[type=\"submit\"], button\x27)\n" ++
  "                if submit_btn:\n" ++
  "                    await submit_btn.click()\n" ++
  "                    await page.wait_for_load_state(\x27networkidle\x27, timeout=10000)\n" ++
  "                    \n" ++
  "                    # Check for SQL error indicators\n" ++
  "                    content = await page.content()\n" ++
  "                    error_indicators = [\n" ++
  "                        \x27sql syntax\x27, \x27mysql error\x27, \x27postgresql error\x27, \x27sqlite error\x27,\n" ++
  "                        \x27ora-\x27, \x27microsoft jet database\x27, \x27odbc\x27, \x27warning: mysql\x27,\n" ++
  "                        \x27error in your sql syntax\x27, \x27quoted string not properly terminated\x27\n" ++
  "                    ]\n" ++
  "                    \n" ++
  "                    for indicator in error_indicators:\n" ++
  "                        if indicator.lower() in content.lower():\n" ++
  "                            print(f\"SQL INJECTION VULNERABILITY DETECTED: \x7bindicator\x7d\")\n" ++
  "                            return\n" ++
  "        \n" ++
  "        print(\"RESULT: No obvious SQL injection vulnerability detected\")\n" ++
  "        await browser.close()\n" ++
  "\n" ++
  "if __name__ == \"__main__\":\n" ++
  "    asyncio.run(main())\n"

/-- The `sql_injection_test` branch of `generate_playwright_script`, with
its four splices in template order: url, payload, url, payload. -/
def sqlScript (url payload : String) : String :=
  sqlPart1 ++ url ++ sqlPart2 ++ payload ++ sqlPart3 ++ url ++ sqlPart4 ++ payload ++ sqlPart5

/-- Text of the generic fallback template before the `{scenario}` splice. -/
def genPart1 : String :=
  "\n" ++
  "import asyncio\n" ++
  "from playwright.async_api import async_playwright\n" ++
  "\n" ++
  "async def main():\n" ++
  "    async with async_playwright() as p:\n" ++
  "        browser = await p.chromium.launch(headless=False)\n" ++
  "        page = await browser.new_page()\n" ++
  "        \n" ++
  "        print(f\"Running scenario: "

/-- Generic fallback template text between `{scenario}` and `{url}`. -/
def genPart2 : String :=
  "\")\n" ++
  "        await page.goto(\""

/-- Generic fallback template text after the `{url}` splice. -/
def genPart3 : String :=
  "\", timeout=30000)\n" ++
  "        await page.wait_for_load_state(\x27networkidle\x27, timeout=10000)\n" ++
  "        \n" ++
  "        print(\"Scenario completed\")\n" ++
  "        await browser.close()\n" ++
  "\n" ++
  "if __name__ == \"__main__\":\n" ++
  "    asyncio.run(main())\n"

/-- The `else` branch of `generate_playwright_script` ("Generic
scenario"): the f-string with `{scenario}` and `{url}` interpolated. -/
def genericScript (scenario url : String) : String :=
  genPart1 ++ scenario ++ genPart2 ++ url ++ genPart3

/-- Python's `payload or default`: the default is used both when the
payload is absent and when it is the (falsy) empty string. -/
def pyOrDefault (payload : Option String) (d : String) : String :=
  match payload with
  | some p => if p.isEmpty then d else p
  | none => d

/-- Embeds `generate_playwright_script`: branch on the scenario name; the
`xss_test` and `sql_injection_test` branches first default a missing
payload (`payload = payload or ...`); every other name falls through to
the generic template.  The `args` mapping is accepted
(`args = args or {}`) but never used by any template. -/
def generate_playwright_script (scenario url : String) (payload : Option String)
    (_args : List (String × JValue)) : String :=
  if scenario = "navigate" then navigateScript url
  else if scenario = "xss_test" then
    xssScript url (pyOrDefault payload "<script>alert(\x27XSS\x27)</script>")
  else if scenario = "sql_injection_test" then
    sqlScript url (pyOrDefault payload "\x27 OR \x271\x27=\x271")
  else genericScript scenario url

/-- The response dict of `run_playwright_scenario`'s success path: keys
`success`, `scenario`, `url`, `stdout`, `stderr`, `screenshot_b64`,
`returncode`. -/
structure PlaywrightResponse where
  success : Bool
  scenario : String
  url : String
  stdout : String
  stderr : String
  screenshot_b64 : Option String
  returncode : Int
  deriving DecidableEq

/-- What one `/playwright` request did: the argument lists of the
subprocesses it spawned, the script text it wrote to the temporary file,
and the response it returned. -/
structure PlaywrightRun where
  spawned : List (List String)
  script : String
  response : PlaywrightResponse
  deriving DecidableEq

/-- Embeds `run_playwright_scenario` (`/playwright`): generate the script
for the request, write it to a temporary path, run exactly
`["python3", script_path]` as the subprocess — request values never
appear in the argument list — and answer with
`success = (returncode == 0)`, the captured streams and the optional
screenshot (whose capture failure is swallowed). -/
def run_playwright_scenario (scenario url : String) (payload : Option String)
    (args : List (String × JValue)) (script_path : String)
    (rc : Int) (out err : String) (screenshot : Option String) : PlaywrightRun :=
  let script := generate_playwright_script scenario url payload args
  { spawned := [["python3", script_path]]
    script := script
    response :=
      { success := rc == 0, scenario := scenario, url := url, stdout := out,
        stderr := err, screenshot_b64 := screenshot, returncode := rc } }

/-- The scenario names `generate_playwright_script` recognises with a
dedicated branch. -/
def scenarioRegistry : List String := ["navigate", "xss_test", "sql_injection_test"]

/-- C3 counterexample: the unregistered scenario name `bogus` is not
rejected — the dispatcher spawns a `python3` process for it and the
response reports success, not a ScenarioNotFound / InvalidInput error. -/
theorem C3_unknown_scenario_not_rejected :
    "bogus" ∉ scenarioRegistry ∧
    (run_playwright_scenario "bogus" "http://target.example" none [] "/tmp/scn.py"
        0 "" "" none).spawned = [["python3", "/tmp/scn.py"]] ∧
    (run_playwright_scenario "bogus" "http://target.example" none [] "/tmp/scn.py"
        0 "" "" none).response.success = true := by
  refine ⟨by decide, rfl, rfl⟩

/-- C3 amended: a scenario name outside the fixed registry is not
rejected: script generation falls through to the generic template and a
`python3` process is spawned for the request. -/
theorem C3_amended_generic_fallthrough (scenario url : String) (payload : Option String)
    (args : List (String × JValue)) (path : String) (rc : Int) (out err : String)
    (ss : Option String) (h : scenario ∉ scenarioRegistry) :
    generate_playwright_script scenario url payload args = genericScript scenario url ∧
    (run_playwright_scenario scenario url payload args path rc out err ss).spawned
      = [["python3", path]] := by
  simp only [scenarioRegistry, List.mem_cons, List.not_mem_nil, or_false, not_or] at h
  obtain ⟨h1, h2, h3⟩ := h
  exact ⟨by simp [generate_playwright_script, h1, h2, h3], rfl⟩

/-- C3 amended, witness: concrete instance at the unregistered name
`totally_unknown`. -/
theorem C3_amended_generic_fallthrough_witness :
    generate_playwright_script "totally_unknown" "http://t.example" none []
      = genericScript "totally_unknown" "http://t.example" ∧
    (run_playwright_scenario "totally_unknown" "http://t.example" none [] "/tmp/s.py"
        1 "" "" none).spawned = [["python3", "/tmp/s.py"]] :=
  C3_amended_generic_fallthrough "totally_unknown" "http://t.example" none []
    "/tmp/s.py" 1 "" "" none (by decide)

/-- C4 counterexample: the program run for a request is constructed from
the request's values — two navigate requests differing only in the target
URL produce different scripts — and the URL is not passed to the
subprocess as an argument-list element: the argument list is always
`["python3", script_path]`. -/
theorem C4_script_built_from_request_values :
    generate_playwright_script "navigate" "http://a.example" none []
      ≠ generate_playwright_script "navigate" "http://b.example" none [] ∧
    (run_playwright_scenario "navigate" "http://a.example" none [] "/tmp/scn4.py"
        0 "" "" none).spawned = [["python3", "/tmp/scn4.py"]] ∧
    "http://a.example" ∉ (["python3", "/tmp/scn4.py"] : List String) := by
  refine ⟨by decide, rfl, by decide⟩

/-- C4 amended: for every scenario request the subprocess argument list is
the fixed `["python3", script_path]`, and the request's target URL
reaches the subprocess through the generated program text instead: the
generated script always decomposes as `pre ++ url ++ post`. -/
theorem C4_amended_url_spliced_into_script (scenario url : String)
    (payload : Option String) (args : List (String × JValue)) (path : String)
    (rc : Int) (out err : String) (ss : Option String) :
    (run_playwright_scenario scenario url payload args path rc out err ss).spawned
      = [["python3", path]] ∧
    ∃ pre post, generate_playwright_script scenario url payload args = pre ++ url ++ post := by
  refine ⟨rfl, ?_⟩
  by_cases h1 : scenario = "navigate"
  · exact ⟨navPart1, navPart2 ++ url ++ navPart3,
      by simp [generate_playwright_script, h1, navigateScript, String.append_assoc]⟩
  by_cases h2 : scenario = "xss_test"
  · exact ⟨xssPart1,
      xssPart2 ++ pyOrDefault payload "<script>alert(\x27XSS\x27)</script>" ++
        xssPart3 ++ url ++ xssPart4 ++
        pyOrDefault payload "<script>alert(\x27XSS\x27)</script>" ++
        xssPart5 ++ url ++ xssPart6 ++ url ++ xssPart7 ++
        pyOrDefault payload "<script>alert(\x27XSS\x27)</script>" ++ xssPart8,
      by simp [generate_playwright_script, h1, h2, xssScript, String.append_assoc]⟩
  by_cases h3 : scenario = "sql_injection_test"
  · exact ⟨sqlPart1,
      sqlPart2 ++ pyOrDefault payload "\x27 OR \x271\x27=\x271" ++ sqlPart3 ++ url ++
        sqlPart4 ++ pyOrDefault payload "\x27 OR \x271\x27=\x271" ++ sqlPart5,
      by simp [generate_playwright_script, h1, h2, h3, sqlScript, String.append_assoc]⟩
  · exact ⟨genPart1 ++ scenario ++ genPart2, genPart3,
      by simp [generate_playwright_script, h1, h2, h3, genericScript,
               String.append_assoc]⟩

/-! ## Static scan endpoint (`src/sandbox_api/main.py run_static_scan`) -/

/-- Append `xs` to a JSON array value (`list.extend` / repeated
`list.append`); non-arrays are left untouched. -/
def jarrAppend (v : JValue) (xs : List JValue) : JValue :=
  match v with
  | .jarr ys => .jarr (ys ++ xs)
  | _ => v

/-- Mutate one key of a Python dict modelled as an association list:
extend the array stored under `k` by `xs` (`results[k].append(...)` /
`results[k].extend(...)`). -/
def jappend (o : List (String × JValue)) (k : String) (xs : List JValue) :
    List (String × JValue) :=
  o.map (fun p => if p.1 = k then (p.1, jarrAppend p.2 xs) else p)

/-- Python's `str.lower()` applied to a JSON string value. -/
def jstrLower : JValue → JValue
  | .jstr s => .jstr s.toLower
  | v => v

/-- One merged-findings entry built from a Semgrep result dict: the
`.get(..., default)` chains of `run_static_scan`'s Semgrep loop. -/
def semgrep_finding (f : JValue) : JValue :=
  .jobj [("tool", .jstr "semgrep"),
         ("type", jget f "check_id" (.jstr "unknown")),
         ("severity", jget (jget f "extra" (.jobj [])) "severity" (.jstr "medium")),
         ("file", jget f "path" (.jstr "")),
         ("line", jget (jget f "start" (.jobj [])) "line" (.jnum 0)),
         ("message", jget (jget f "extra" (.jobj [])) "message" (.jstr "")),
         ("evidence", jget (jget f "extra" (.jobj [])) "lines" (.jstr ""))]

/-- One merged-findings entry built from a Bandit result dict: the
`.get(..., default)` chains of `run_static_scan`'s Bandit loop (severity
lower-cased). -/
def bandit_finding (f : JValue) : JValue :=
  .jobj [("tool", .jstr "bandit"),
         ("type", jget f "test_id" (.jstr "unknown")),
         ("severity", jstrLower (jget f "issue_severity" (.jstr "medium"))),
         ("file", jget f "filename" (.jstr "")),
         ("line", jget f "line_number" (.jnum 0)),
         ("message", jget f "issue_text" (.jstr "")),
         ("evidence", jget f "code" (.jstr ""))]

/-- The external behaviour `run_static_scan` depends on: whether each tool
resolves on the PATH, the exit code its subprocess returns, and the
result of `json.loads` on its stdout (`none` models
`json.JSONDecodeError`). -/
structure StaticScanEnv where
  semgrep_available : Bool
  semgrep_returncode : Int
  semgrep_parsed : Option JValue
  bandit_available : Bool
  bandit_returncode : Int
  bandit_parsed : Option JValue

/-- Embeds `run_static_scan` (`/scan/static`, with `repository_path`
present): build the results dict with its four keys, then run Semgrep
(used only when it is on the PATH and exits 0) and Bandit (used when it
exits 0 or 1, since Bandit reports findings via exit code 1), appending
each tool's findings and name on success and leaving the dict untouched
when the tool is unavailable, exits outside the accepted codes, or its
output fails to parse. -/
def run_static_scan (repository_path : String) (env : StaticScanEnv) :
    List (String × JValue) :=
  let results : List (String × JValue) :=
    [("scan_type", .jstr "static"),
     ("repository_path", .jstr repository_path),
     ("findings", .jarr []),
     ("tools_used", .jarr [])]
  let results :=
    if env.semgrep_available && (env.semgrep_returncode == 0) then
      match env.semgrep_parsed with
      | some data =>
        let fs := (jarrElems (jget data "results" (.jarr []))).map semgrep_finding
        jappend (jappend results "findings" fs) "tools_used" [.jstr "semgrep"]
      | none => results
    else results
  let results :=
    if env.bandit_available && (env.bandit_returncode == 0 || env.bandit_returncode == 1) then
      match env.bandit_parsed with
      | some data =>
        let fs := (jarrElems (jget data "results" (.jarr []))).map bandit_finding
        jappend (jappend results "findings" fs) "tools_used" [.jstr "bandit"]
      | none => results
    else results
  results

/-- Appending to an array-valued entry never changes the dict's keys. -/
theorem jappend_keys (o : List (String × JValue)) (k : String) (xs : List JValue) :
    (jappend o k xs).map Prod.fst = o.map Prod.fst := by
  induction o with
  | nil => rfl
  | cons hd tl ih =>
    by_cases h : hd.1 = k <;> simp [jappend, h] at ih ⊢ <;> exact ih

/-! ## Result merger and adapter set (`src/sandbox_api/scanners`) -/

/-- The `runs` entry of a SARIF document: `s.get("runs", [])`, iterated as
a list. -/
def getRuns (v : JValue) : List JValue :=
  jarrElems (jget v "runs" (.jarr []))

/-- Embeds `sarif_merge.merge_sarif`: an empty input yields the empty
SARIF 2.1.0 report; otherwise the base report's `runs` list is extended
by each input's `runs` in input order. -/
def merge_sarif (sarifs : List JValue) : JValue :=
  if sarifs.isEmpty then
    .jobj [("version", .jstr "2.1.0"), ("runs", .jarr [])]
  else
    .jobj [("version", .jstr "2.1.0"),
           ("runs", .jarr (sarifs.foldl (fun acc s => acc ++ getRuns s) []))]

/-- The Python `except FileNotFoundError` aside, how a tool's
`subprocess.Popen` + `communicate` behaves: it completes within the
timeout, or `TimeoutExpired` is raised and the process is killed and
drained (`p.kill(); p.communicate()`), or the executable is absent. -/
inductive SpawnBehavior where
  | completes (returncode : Int) (stdout stderr : String)
  | timesOutKilled (returncode : Int) (stdout stderr : String)
  | notFound
  deriving DecidableEq

/-- Embeds `static_runner._run`: the `(returncode, stdout, stderr)` triple,
with the `FileNotFoundError` fallback `(1, "", "Tool <cmd0> not found")`. -/
def _run (cmd : List String) (b : SpawnBehavior) : Int × String × String :=
  match b with
  | .completes rc out err => (rc, out, err)
  | .timesOutKilled rc out err => (rc, out, err)
  | .notFound => (1, "", "Tool " ++ cmd.headD "" ++ " not found")

/-- What one adapter's run depends on: its subprocess behaviour and the
result of `json.loads` on its stdout (`none` models a raised exception,
which the adapter's `except Exception: return None` swallows). -/
structure ToolEnv where
  spawn : SpawnBehavior
  jsonParse : String → Option JValue

/-- Python's `str.strip()`: drop leading and trailing whitespace. -/
def pyStrip (s : String) : String :=
  String.mk (((s.toList.dropWhile (fun c => c.isWhitespace)).reverse.dropWhile
    (fun c => c.isWhitespace)).reverse)

/-- Python's `str.startswith(pre)`. -/
def pyStartsWith (pre s : String) : Bool :=
  s.toList.take pre.length == pre.toList

/-- Embeds `static_runner.semgrep_sarif`: run Semgrep via `_run`, parse
stdout only when it starts with a brace, and degrade to `none` otherwise
(the exit code is deliberately ignored). -/
def semgrep_sarif (path : String) (env : ToolEnv) : Option JValue :=
  let r := _run ["semgrep", "--sarif", "--quiet", "--error", "--timeout", "120",
                 "-r", "auto", path] env.spawn
  if pyStartsWith "\x7b" (pyStrip r.2.1) then env.jsonParse r.2.1 else none

/-- Embeds `static_runner.bandit_sarif`. -/
def bandit_sarif (path : String) (env : ToolEnv) : Option JValue :=
  let r := _run ["bandit", "-r", path, "-f", "sarif", "-q"] env.spawn
  if pyStartsWith "\x7b" (pyStrip r.2.1) then env.jsonParse r.2.1 else none

/-- Embeds `static_runner.pip_audit_sarif`: skipped entirely when the
scanned path has no `requirements.txt`. -/
def pip_audit_sarif (_path : String) (reqExists : Bool) (env : ToolEnv) : Option JValue :=
  if !reqExists then none
  else
    let r := _run ["pip-audit", "-f", "sarif", "-r", "requirements.txt"] env.spawn
    if pyStartsWith "\x7b" (pyStrip r.2.1) then env.jsonParse r.2.1 else none

/-- Embeds `static_runner.run_all`, with each adapter's produced value
passed in: iterate the fixed adapter list (Semgrep, Bandit, pip-audit, in
that priority order) and append each truthy result (`if sarif:`); a
raising adapter is skipped by the surrounding `except`. -/
def run_all (semgrep bandit pip_audit : Option JValue) : List JValue :=
  [semgrep, bandit, pip_audit].foldl
    (fun res o =>
      match o with
      | some sarif => if jtruthy sarif then res ++ [sarif] else res
      | none => res) []

/-- The contribution one adapter outcome makes to `run_all`'s result. -/
def contrib : Option JValue → List JValue
  | some v => if jtruthy v then [v] else []
  | none => []

/-- Folding list-append over a list is the flattened map. -/
theorem foldl_append_getRuns (l : List JValue) (a : List JValue) :
    l.foldl (fun acc s => acc ++ getRuns s) a = a ++ (l.map getRuns).flatten := by
  induction l generalizing a with
  | nil => simp
  | cons hd tl ih => simp [ih, List.append_assoc]

/-- C5: the scan report's shape is fixed: for every combination of tool
availability, exit codes and parse outcomes, the static scan result has
exactly the top-level keys scan_type, repository_path, findings and
tools_used, and every merged SARIF report has exactly the keys version
and runs. -/
theorem C5_scan_report_shape_fixed (repository_path : String) (env : StaticScanEnv) :
    (run_static_scan repository_path env).map Prod.fst
      = ["scan_type", "repository_path", "findings", "tools_used"] ∧
    ∀ sarifs : List JValue, objKeys (merge_sarif sarifs) = ["version", "runs"] := by
  constructor
  · simp only [run_static_scan]
    repeat' split
    all_goals simp [jappend_keys]
  · intro sarifs
    cases sarifs <;> rfl

/-- C6: merging the empty list yields the valid empty report (zero runs,
hence zero findings and no contributing tools); the merged report's runs
are exactly the concatenation of the inputs' runs in input order; and
`run_all` produces its inputs in the fixed adapter priority order
(Semgrep, then Bandit, then pip-audit), not in completion order. -/
theorem C6_merge_concatenates_in_priority_order :
    merge_sarif [] = .jobj [("version", .jstr "2.1.0"), ("runs", .jarr [])] ∧
    (∀ sarifs : List JValue, getRuns (merge_sarif sarifs) = (sarifs.map getRuns).flatten) ∧
    (∀ semgrep bandit pip_audit : Option JValue,
      run_all semgrep bandit pip_audit
        = contrib semgrep ++ contrib bandit ++ contrib pip_audit) := by
  refine ⟨rfl, ?_, ?_⟩
  · intro sarifs
    cases sarifs with
    | nil => rfl
    | cons hd tl =>
      show (hd :: tl).foldl (fun acc s => acc ++ getRuns s) [] = _
      rw [foldl_append_getRuns]
      simp
  · intro s b p
    cases s <;> cases b <;> cases p <;>
      simp [run_all, contrib] <;> split_ifs <;> simp

/-- C7: an adapter's failure is isolated.  A missing tool yields an empty
stdout and hence no parse, and unparseable output yields `none`, so the
failing adapter contributes zero findings; and `run_all` composes the
adapters' contributions independently, so one adapter's failure leaves
the other adapters' contributions — and the scan's result for them —
unchanged. -/
theorem C7_adapter_failure_isolated :
    (∀ path env, env.spawn = SpawnBehavior.notFound → semgrep_sarif path env = none) ∧
    (∀ path env rc out err, env.spawn = SpawnBehavior.completes rc out err →
      env.jsonParse out = none → semgrep_sarif path env = none) ∧
    (∀ s b p : Option JValue, run_all s b p = contrib s ++ run_all none b p) ∧
    (∀ b p : Option JValue, run_all none b p = contrib b ++ contrib p) := by
  refine ⟨?_, ?_, ?_, ?_⟩
  · intro path env h
    simp [semgrep_sarif, _run, h]
    intro hf
    exact absurd hf (by decide)
  · intro path env rc out err h hp
    simp only [semgrep_sarif, _run, h]
    split <;> simp [hp]
  · intro s b p
    cases s <;> cases b <;> cases p <;>
      simp [run_all, contrib] <;> split_ifs <;> simp
  · intro b p
    cases b <;> cases p <;>
      simp [run_all, contrib] <;> split_ifs <;> simp

/-- C7 witness: a missing Semgrep binary and a Semgrep run with
unparseable stdout both contribute nothing, and with Semgrep failed the
scan still carries Bandit's report. -/
theorem C7_adapter_failure_isolated_witness :
    semgrep_sarif "/repo" ⟨SpawnBehavior.notFound, fun _ => none⟩ = none ∧
    semgrep_sarif "/repo" ⟨SpawnBehavior.completes 2 "garbage" "", fun _ => none⟩ = none ∧
    run_all none (some (JValue.jobj [("version", JValue.jstr "2.1.0")])) none
      = contrib (some (JValue.jobj [("version", JValue.jstr "2.1.0")])) ++ contrib none :=
  ⟨C7_adapter_failure_isolated.1 "/repo" ⟨SpawnBehavior.notFound, fun _ => none⟩ rfl,
   C7_adapter_failure_isolated.2.1 "/repo" ⟨SpawnBehavior.completes 2 "garbage" "", fun _ => none⟩
     2 "garbage" "" rfl rfl,
   C7_adapter_failure_isolated.2.2.2
     (some (JValue.jobj [("version", JValue.jstr "2.1.0")])) none⟩

/-! ## Findings reporter (`src/sandbox_api/scanners/sarif_merge.py post_findings`) -/

/-- How the collector behaves for one delivery attempt: it answers with an
HTTP status, or the connection fails, or the 30-second client timeout
expires. -/
inductive DeliveryOutcome where
  | responded (status : Nat)
  | networkError
  | timedOut
  deriving DecidableEq

/-- The observable effect of one `post_findings` call: the request it
built (URL, headers, JSON body, client timeout), whether an exception
escaped to the caller, and whether the failure branch logged an error. -/
structure PostEffect where
  url : String
  headers : List (String × String)
  body : List (String × JValue)
  timeoutSeconds : Nat
  raised : Bool
  errorLogged : Bool

/-- Embeds `sarif_merge.post_findings`: POST to
`control_plane_url.rstrip("/") + "/api/findings"` with body
`{session_id, source: "sast", sarif}` and a Bearer header exactly when
the token is truthy (non-empty), under a 30-second client timeout;
`raise_for_status` makes 4xx/5xx responses errors, and the enclosing
`except Exception` turns every failure into a log line, so no exception
ever reaches the caller (`Char.ofNat 47` is the slash character). -/
def post_findings (control_plane_url token session_id : String) (sarif : JValue)
    (outcome : DeliveryOutcome) : PostEffect :=
  { url := pyRstrip (Char.ofNat 47) control_plane_url ++ "/api/findings"
    headers := if token = "" then [] else [("Authorization", "Bearer " ++ token)]
    body := [("session_id", .jstr session_id), ("source", .jstr "sast"), ("sarif", sarif)]
    timeoutSeconds := 30
    raised := false
    errorLogged :=
      match outcome with
      | .responded status => if 400 ≤ status then true else false
      | _ => true }

/-- Modelled from the spec: the sources define the merger and the reporter
but contain no caller wiring `post_findings` into a scan endpoint, so the
scan-to-reporter composition is taken from the spec's control flow
(sections 2 and 4.5): the scan computes its merged report, then triggers
one best-effort delivery, and returns its own report regardless of the
delivery's outcome. -/
def scan_then_report (control_plane_url token session_id : String)
    (semgrep bandit pip_audit : Option JValue) (outcome : DeliveryOutcome) :
    JValue × PostEffect :=
  let report := merge_sarif (run_all semgrep bandit pip_audit)
  (report, post_findings control_plane_url token session_id report outcome)

/-- C8: no delivery outcome — network failure, client timeout, or an
error response — ever raises out of the reporter, and the scan's own
returned report is the same value whatever the delivery outcome was. -/
theorem C8_delivery_failure_never_raised (cp token sid : String) (sarif : JValue)
    (semgrep bandit pip_audit : Option JValue) (o o' : DeliveryOutcome) :
    (post_findings cp token sid sarif o).raised = false ∧
    (scan_then_report cp token sid semgrep bandit pip_audit o).1
      = (scan_then_report cp token sid semgrep bandit pip_audit o').1 :=
  ⟨rfl, rfl⟩

/-- C9 counterexample: the reporter does not use the claimed wire
contract: at a concrete collector URL the request goes to
`/api/findings`, not to the collector's `/findings` path, and the body
carries the report under the key `sarif` — there is no `report` key. -/
theorem C9_wire_contract_differs :
    (post_findings "http://collector.example" "tok" "sess" (JValue.jobj [])
        (.responded 200)).url ≠ "http://collector.example/findings" ∧
    "report" ∉ ((post_findings "http://collector.example" "tok" "sess" (JValue.jobj [])
        (.responded 200)).body.map Prod.fst) := by
  exact ⟨by decide, by decide⟩

/-- C9 amended: every delivery attempt POSTs to the collector's
`/api/findings` path with body `{session_id, source: "sast", sarif:
<ScanReport>}` under a 30-second timeout, attaching bearer-token
authorization exactly when a (non-empty) token is configured. -/
theorem C9_amended_wire_contract (cp token sid : String) (sarif : JValue)
    (o : DeliveryOutcome) :
    (post_findings cp token sid sarif o).url
      = pyRstrip (Char.ofNat 47) cp ++ "/api/findings" ∧
    (post_findings cp token sid sarif o).body
      = [("session_id", .jstr sid), ("source", .jstr "sast"), ("sarif", sarif)] ∧
    (post_findings cp token sid sarif o).timeoutSeconds = 30 ∧
    (token = "" → (post_findings cp token sid sarif o).headers = []) ∧
    (token ≠ "" → (post_findings cp token sid sarif o).headers
      = [("Authorization", "Bearer " ++ token)]) := by
  refine ⟨rfl, rfl, rfl, ?_, ?_⟩ <;> intro h <;> simp [post_findings, h]

/-- C9 amended, witness: concrete delivery with a configured token: the
URL is the collector's `/api/findings` and the bearer header is
attached. -/
theorem C9_amended_wire_contract_witness :
    (post_findings "http://cp.example/" "tkn" "s1" (JValue.jobj []) .networkError).url
      = pyRstrip (Char.ofNat 47) "http://cp.example/" ++ "/api/findings" ∧
    (post_findings "http://cp.example/" "tkn" "s1" (JValue.jobj []) .networkError).headers
      = [("Authorization", "Bearer " ++ "tkn")] :=
  ⟨(C9_amended_wire_contract "http://cp.example/" "tkn" "s1" (JValue.jobj [])
      .networkError).1,
   (C9_amended_wire_contract "http://cp.example/" "tkn" "s1" (JValue.jobj [])
      .networkError).2.2.2.2 (by decide)⟩

/-! ## Execute endpoint of `src/sandbox_api/main.py` -/

/-- `sandbox_api/main.py` `ExecuteRequest` (pydantic model). -/
structure ExecuteRequest where
  cmd : String
  timeout : Int := 60
  background : Bool := false

/-- The dict returned by the background branch of
`sandbox_api/main.py execute_command`, built at spawn time from the clock
and the new process's PID (the process is also inserted into
`running_processes` under the same id). -/
def background_response (pid now : Nat) : List (String × JValue) :=
  [("success", .jbool true),
   ("process_id", .jstr ("proc_" ++ toString now ++ "_" ++ toString pid)),
   ("pid", .jnum pid),
   ("message", .jstr "Process started in background")]

/-- Embeds `sandbox_api/main.py execute_command` (`/execute`).
`eventualExit` is the exit status the spawned background process will
eventually have; the background branch returns before it exists and never
reads it.  The synchronous branch reports the real return code, the
timeout error body, or the generic error body. -/
def sbx_execute_command (req : ExecuteRequest) (pid now : Nat) (eventualExit : Int)
    (outcome : RunOutcome) : List (String × JValue) :=
  if req.background then
    background_response pid now
  else
    match outcome with
    | .completes rc out err =>
      [("success", .jbool (rc == 0)), ("returncode", .jnum rc),
       ("stdout", .jstr out), ("stderr", .jstr err), ("command", .jstr req.cmd)]
    | .timesOut =>
      [("success", .jbool false),
       ("error", .jstr ("Command timed out after " ++ toString req.timeout ++ " seconds")),
       ("command", .jstr req.cmd)]
    | .raises msg =>
      [("success", .jbool false), ("error", .jstr msg), ("command", .jstr req.cmd)]

/-- C10: with the background flag set, the execute endpoint replies
immediately with `success=true` and a process handle, and the reply is
the same whatever the spawned process eventually does — its eventual exit
status and the behaviour of any synchronous run are never consulted. -/
theorem C10_background_reply_independent (req : ExecuteRequest) (pid now : Nat)
    (e1 e2 : Int) (o1 o2 : RunOutcome) (hbg : req.background = true) :
    (sbx_execute_command req pid now e1 o1).lookup "success" = some (JValue.jbool true) ∧
    (sbx_execute_command req pid now e1 o1).lookup "process_id"
      = some (.jstr ("proc_" ++ toString now ++ "_" ++ toString pid)) ∧
    sbx_execute_command req pid now e1 o1 = sbx_execute_command req pid now e2 o2 := by
  have h1 : sbx_execute_command req pid now e1 o1 = background_response pid now := by
    simp [sbx_execute_command, hbg]
  have h2 : sbx_execute_command req pid now e2 o2 = background_response pid now := by
    simp [sbx_execute_command, hbg]
  rw [h1, h2]
  exact ⟨rfl, rfl, rfl⟩

/-- C10 witness: a concrete background request; the reply stays the same
across two different eventual exit statuses and run outcomes. -/
theorem C10_background_reply_independent_witness :
    (sbx_execute_command ⟨"nmap -p- target", 60, true⟩ 101 1700000000 9
        RunOutcome.timesOut).lookup "success" = some (JValue.jbool true) ∧
    (sbx_execute_command ⟨"nmap -p- target", 60, true⟩ 101 1700000000 9
        RunOutcome.timesOut).lookup "process_id"
      = some (.jstr ("proc_" ++ toString 1700000000 ++ "_" ++ toString 101)) ∧
    sbx_execute_command ⟨"nmap -p- target", 60, true⟩ 101 1700000000 9
        RunOutcome.timesOut
      = sbx_execute_command ⟨"nmap -p- target", 60, true⟩ 101 1700000000 (-3)
          (RunOutcome.completes 7 "" "") :=
  C10_background_reply_independent ⟨"nmap -p- target", 60, true⟩ 101 1700000000 9 (-3)
    RunOutcome.timesOut (RunOutcome.completes 7 "" "") rfl

end Paladin
